import Mathlib

/-!
Verification of the identity and trust-token subsystem of the NeuroCore
server (`src/server/auth/AuthenticationSystem.ts` and
`src/server/auth/EmailService.ts`).

The TypeScript code is shallowly embedded: database tables become lists of
records, the in-memory `loginAttempts` JS `Map` becomes an association list,
timestamps are integers (milliseconds since epoch), and the effectful
collaborators (bcrypt, TOTP verification, random token generation, JWT
signing) become explicit function or value parameters, so that every
operation is a pure, executable Lean function on an explicit state.
-/

/-- A row of the `users` table.  Fields never read by the modelled flows
(`role`, `preferences`, timestamps) are omitted.  `password` holds the
bcrypt hash, as in the schema. -/
structure UserRec where
  id : Nat
  username : String
  email : String
  password : String
  displayName : String
  isActive : Bool
deriving Repr, DecidableEq

/-- A row of the `authTokens` table (`id` and `createdAt` are never read by
the modelled flows and are omitted; rows are keyed by their `token` value,
exactly as `markTokenAsUsed` does). -/
structure AuthTokenRec where
  userId : Nat
  token : String
  type : String
  expiresAt : Int
  isUsed : Bool
deriving Repr, DecidableEq

/-- A row of the `twoFactorAuth` table (`backupCodes` and `createdAt` are
never read by the modelled flows and are omitted). -/
structure TwoFactorRec where
  id : Nat
  userId : Nat
  secret : String
  isEnabled : Bool
  lastUsed : Option Int
deriving Repr, DecidableEq

/-- A row of the `sessions` table (`data` holds only the bearer token,
which is never read back by the modelled flows, so it is omitted). -/
structure SessionRec where
  id : String
  userId : Nat
  expiresAt : Int
deriving Repr, DecidableEq

/-- The database state visible to `AuthenticationSystem`. -/
structure DB where
  users : List UserRec
  authTokens : List AuthTokenRec
  twoFactorAuth : List TwoFactorRec
  sessions : List SessionRec
deriving Repr, DecidableEq

/-- The drizzle `where` clause of `verifyAuthToken`:
`eq(token) ∧ eq(type) ∧ eq(isUsed, false) ∧ gt(expiresAt, now)`. -/
def tokenMatches (token ty : String) (now : Int) (r : AuthTokenRec) : Bool :=
  r.token == token && r.type == ty && r.isUsed == false && decide (now < r.expiresAt)

/-- `verifyAuthToken` (AuthenticationSystem.ts:582-593): `findFirst` over
`authTokens` with the conjunctive filter, returning the record or nothing. -/
def verifyAuthToken (db : DB) (token ty : String) (now : Int) : Option AuthTokenRec :=
  db.authTokens.find? (tokenMatches token ty now)

/-- `markTokenAsUsed` (AuthenticationSystem.ts:595-599): sets `isUsed` on
every row whose `token` column equals the given value. -/
def markTokenAsUsed (db : DB) (token : String) : DB :=
  { db with authTokens :=
      db.authTokens.map fun r => if r.token == token then { r with isUsed := true } else r }

-- Example token and database used to instantiate hypotheses concretely.
def exToken : AuthTokenRec :=
  { userId := 7, token := "t1", type := "password_reset", expiresAt := 1000, isUsed := false }

def exDB : DB :=
  { users := [], authTokens := [exToken], twoFactorAuth := [], sessions := [] }

theorem tokenMatches_iff (token ty : String) (now : Int) (r : AuthTokenRec) :
    tokenMatches token ty now r = true ↔
      r.token = token ∧ r.type = ty ∧ r.isUsed = false ∧ now < r.expiresAt := by
  simp [tokenMatches, and_assoc]

/-- C1: `verify(tokenValue, kind)` returns a record exactly when a live
matching record exists: (a) a returned record is a stored row with the
requested token value and kind, unused, and unexpired (`now < expiresAt`
strictly); (b) if such a row exists, `verify` returns one; (c) after
`markTokenAsUsed` on a token value, `verify` of that value returns
nothing; (d) when every row carrying the token value is expired
(`expiresAt ≤ now`), `verify` returns nothing regardless of `isUsed`. -/
theorem verifyAuthToken_spec (db : DB) (token ty : String) (now : Int) :
    (∀ r, verifyAuthToken db token ty now = some r →
      r ∈ db.authTokens ∧ r.token = token ∧ r.type = ty ∧ r.isUsed = false ∧
        now < r.expiresAt) ∧
    ((∃ r ∈ db.authTokens, r.token = token ∧ r.type = ty ∧ r.isUsed = false ∧
        now < r.expiresAt) → (verifyAuthToken db token ty now).isSome) ∧
    (verifyAuthToken (markTokenAsUsed db token) token ty now = none) ∧
    ((∀ r ∈ db.authTokens, r.token = token → r.expiresAt ≤ now) →
      verifyAuthToken db token ty now = none) := by
  refine ⟨?_, ?_, ?_, ?_⟩
  · intro r hr
    have hmem := List.mem_of_find?_eq_some hr
    have hp := List.find?_some hr
    exact ⟨hmem, (tokenMatches_iff token ty now r).mp hp⟩
  · intro ⟨r, hmem, hprops⟩
    rw [verifyAuthToken, List.find?_isSome]
    exact ⟨r, hmem, (tokenMatches_iff token ty now r).mpr hprops⟩
  · rw [verifyAuthToken, List.find?_eq_none]
    intro x hx
    simp only [markTokenAsUsed, List.mem_map] at hx
    obtain ⟨r, _, hrx⟩ := hx
    by_cases h : r.token == token
    · simp only [h, if_pos] at hrx
      subst hrx
      simp [tokenMatches]
    · simp only [h, Bool.false_eq_true, if_neg, if_false] at hrx
      subst hrx
      simp only [tokenMatches, Bool.and_eq_true, beq_iff_eq]
      intro hc
      exact absurd (beq_iff_eq.mpr hc.1.1.1) (by simp_all)
  · intro hall
    rw [verifyAuthToken, List.find?_eq_none]
    intro x hx hc
    obtain ⟨h1, _, _, h4⟩ := (tokenMatches_iff token ty now x).mp hc
    exact absurd h4 (not_lt.mpr (hall x hx h1))

/-- Witness for C1: instantiate at a concrete ledger; the stored unused,
unexpired token verifies, and no longer verifies after consumption. -/
theorem verifyAuthToken_spec_witness :
    (verifyAuthToken exDB "t1" "password_reset" 500).isSome = true ∧
      verifyAuthToken (markTokenAsUsed exDB "t1") "t1" "password_reset" 500 = none := by
  refine ⟨(verifyAuthToken_spec exDB "t1" "password_reset" 500).2.1 ?_,
    (verifyAuthToken_spec exDB "t1" "password_reset" 500).2.2.1⟩
  exact ⟨exToken, by decide, by decide⟩

/-- Entry of the in-memory `loginAttempts` JS `Map` (AuthenticationSystem.ts:64). -/
structure AttemptInfo where
  count : Nat
  lastAttempt : Int
deriving Repr, DecidableEq

/-- The `loginAttempts` map, embedded as an association list with unique
keys (a JS `Map` holds at most one entry per key). -/
abbrev RateMap := List (String × AttemptInfo)

/-- `Map.get`. -/
def rateGet : RateMap → String → Option AttemptInfo
  | [], _ => none
  | (k, v) :: rest, key => if k == key then some v else rateGet rest key

/-- `Map.set`: replaces the entry for the key in place, or appends it. -/
def rateSet : RateMap → String → AttemptInfo → RateMap
  | [], key, v => [(key, v)]
  | (k, w) :: rest, key, v =>
      if k == key then (key, v) :: rest else (k, w) :: rateSet rest key v

/-- `Map.delete` (keys are unique, so removing the first match suffices). -/
def rateDelete : RateMap → String → RateMap
  | [], _ => []
  | (k, v) :: rest, key => if k == key then rest else (k, v) :: rateDelete rest key

/-- The relevant part of `AuthConfig.rateLimits` (defaults 5 attempts per
15-minute window). -/
structure RateLimitsCfg where
  loginAttempts : Nat
  timeWindow : Int
deriving Repr, DecidableEq

/-- The relevant part of `AuthConfig.tokenExpiration` (defaults: 24 h, 1 h,
5 min, in milliseconds). -/
structure TokenExpirationCfg where
  emailVerification : Int
  passwordReset : Int
  twoFactor : Int
deriving Repr, DecidableEq

/-- The relevant part of `AuthConfig.security`. -/
structure SecurityCfg where
  requireEmailVerification : Bool
  sessionTimeout : Int
deriving Repr, DecidableEq

/-- `AuthConfig` (constructor defaults of AuthenticationSystem.ts:66-89). -/
structure AuthConfig where
  rateLimits : RateLimitsCfg
  tokenExpiration : TokenExpirationCfg
  security : SecurityCfg
deriving Repr, DecidableEq

/-- The default `AuthConfig` built by the constructor. -/
def defaultConfig : AuthConfig :=
  { rateLimits := { loginAttempts := 5, timeWindow := 15 * 60 * 1000 }
    tokenExpiration :=
      { emailVerification := 24 * 60 * 60 * 1000
        passwordReset := 60 * 60 * 1000
        twoFactor := 5 * 60 * 1000 }
    security := { requireEmailVerification := true, sessionTimeout := 24 * 60 * 60 * 1000 } }

/-- `checkRateLimit` (AuthenticationSystem.ts:617-629).  Returns the gate
decision and the possibly mutated map (`Map.delete` on a stale entry). -/
def checkRateLimit (m : RateMap) (identifier : String) (now : Int) (cfg : AuthConfig) :
    Bool × RateMap :=
  match rateGet m identifier with
  | none => (true, m)
  | some attempts =>
      if cfg.rateLimits.timeWindow < now - attempts.lastAttempt then
        (true, rateDelete m identifier)
      else
        (decide (attempts.count < cfg.rateLimits.loginAttempts), m)

/-- `recordFailedAttempt` (AuthenticationSystem.ts:631-639). -/
def recordFailedAttempt (m : RateMap) (identifier : String) (now : Int) : RateMap :=
  let attempts := (rateGet m identifier).getD { count := 0, lastAttempt := now }
  rateSet m identifier { count := attempts.count + 1, lastAttempt := now }

/-- `clearRateLimit` (AuthenticationSystem.ts:641-643). -/
def clearRateLimit (m : RateMap) (identifier : String) : RateMap :=
  rateDelete m identifier

theorem rateGet_rateSet (m : RateMap) (k : String) (v : AttemptInfo) :
    rateGet (rateSet m k v) k = some v := by
  induction m with
  | nil => simp [rateSet, rateGet]
  | cons hd tl ih =>
      obtain ⟨k', w⟩ := hd
      by_cases h : k' == k
      · simp [rateSet, h, rateGet]
      · simp only [rateSet, h, Bool.false_eq_true, if_false, rateGet]
        exact ih

/-- C5 fails on the code: with a stored entry `{count := 3, lastAttempt := 0}`
and a current time far beyond the 15-minute window, `recordFailedAttempt`
stores count 4, not the count 1 the claim requires. -/
theorem recordFailedAttempt_no_stale_reset :
    rateGet (recordFailedAttempt [("a@x.com", { count := 3, lastAttempt := 0 })]
        "a@x.com" 1000000000) "a@x.com" =
      some { count := 4, lastAttempt := 1000000000 } ∧
    (1000000000 : Int) - 0 > defaultConfig.rateLimits.timeWindow ∧
    (4 : Nat) ≠ 1 := by
  refine ⟨by decide, by decide, by decide⟩

/-- C5 amended: `recordFailure` always increments the stored count by one
(starting from 0 when absent) and refreshes the anchor to the current
time, even when the previous failure is older than the window; the
stale-window reset is instead performed by `checkRateLimit`, which removes
the entry (yielding a pass) when the last failure is older than the
window. -/
theorem recordFailedAttempt_increments (m : RateMap) (identifier : String) (now : Int) :
    rateGet (recordFailedAttempt m identifier now) identifier =
      some { count := ((rateGet m identifier).getD
              { count := 0, lastAttempt := now }).count + 1,
             lastAttempt := now } ∧
    (∀ cfg : AuthConfig, ∀ a : AttemptInfo, rateGet m identifier = some a →
      cfg.rateLimits.timeWindow < now - a.lastAttempt →
      checkRateLimit m identifier now cfg = (true, rateDelete m identifier)) := by
  constructor
  · rw [recordFailedAttempt, rateGet_rateSet]
  · intro cfg a ha hstale
    rw [checkRateLimit, ha]
    simp [hstale]

/-- Witness for C5 amended: a fresh failure on an empty map stores count 1,
and `checkRateLimit` on a stale entry passes and deletes it. -/
theorem recordFailedAttempt_increments_witness :
    rateGet (recordFailedAttempt [] "a@x.com" 42) "a@x.com" =
      some { count := 1, lastAttempt := 42 } ∧
    checkRateLimit [("a@x.com", { count := 5, lastAttempt := 0 })] "a@x.com"
        1000000000 defaultConfig =
      (true, rateDelete [("a@x.com", { count := 5, lastAttempt := 0 })] "a@x.com") := by
  refine ⟨(recordFailedAttempt_increments [] "a@x.com" 42).1, ?_⟩
  exact (recordFailedAttempt_increments
      [("a@x.com", { count := 5, lastAttempt := 0 })] "a@x.com" 1000000000).2
    defaultConfig { count := 5, lastAttempt := 0 } (by decide) (by decide)

/-- `validatePassword` (AuthenticationSystem.ts:645-653): at least 8
characters, with the regex classes `[A-Z]`, `[a-z]`, `\d` and `\W`
(a character outside `[A-Za-z0-9_]`) each inhabited. -/
def validatePassword (password : String) : Bool :=
  let cs := password.toList
  let hasUpperCase := cs.any fun c => decide ('A' ≤ c) && decide (c ≤ 'Z')
  let hasLowerCase := cs.any fun c => decide ('a' ≤ c) && decide (c ≤ 'z')
  let hasNumbers := cs.any fun c => decide ('0' ≤ c) && decide (c ≤ '9')
  let hasNonalphas := cs.any fun c =>
    !((decide ('A' ≤ c) && decide (c ≤ 'Z')) || (decide ('a' ≤ c) && decide (c ≤ 'z')) ||
      (decide ('0' ≤ c) && decide (c ≤ '9')) || c == '_')
  decide (8 ≤ cs.length) && hasUpperCase && hasLowerCase && hasNumbers && hasNonalphas

/-- Helper for `validateEmail`: the tail of the list must contain a `.`
that is neither its first character overall (handled by the caller
dropping the head) nor the last character of the string. -/
def dotNotLast : List Char → Bool
  | [] => false
  | [_] => false
  | c :: rest => c == '.' || dotNotLast rest

/-- Helper for `validateEmail`: split a character list at every `@`. -/
def splitAtSign : List Char → List (List Char)
  | [] => [[]]
  | c :: rest =>
      if c == '@' then [] :: splitAtSign rest
      else
        match splitAtSign rest with
        | [] => [[c]]
        | h :: t => (c :: h) :: t

/-- The regex `^[^\s@]+@[^\s@]+\.[^\s@]+$` of `validateEmail`
(AuthenticationSystem.ts:655-658): exactly one `@`, no whitespace, a
non-empty local part, and a `.` in the domain with non-empty text on both
sides (the greedy classes may themselves contain dots). -/
def validateEmail (email : String) : Bool :=
  match splitAtSign email.toList with
  | [localPart, domain] =>
      decide (0 < localPart.length) &&
      localPart.all (fun c => !c.isWhitespace) &&
      domain.all (fun c => !c.isWhitespace) &&
      (match domain with
       | [] => false
       | _ :: rest => dotNotLast rest)
  | _ => false

/-- `RegisterResult` (AuthenticationSystem.ts:54-60). -/
structure RegisterResult where
  success : Bool
  user : Option UserRec
  token : Option String
  verificationToken : Option String
  message : String
deriving Repr, DecidableEq

/-- The input of `register` (AuthenticationSystem.ts:92-97). -/
structure RegisterInput where
  username : String
  email : String
  password : String
  displayName : Option String
deriving Repr, DecidableEq

/-- `generateAuthToken` (AuthenticationSystem.ts:567-580).  The
cryptographically random 32-byte hex string becomes the explicit
`tokenValue` parameter; the function stores the row and returns the
value. -/
def generateAuthToken (db : DB) (userId : Nat) (ty : String) (expiresIn : Int)
    (tokenValue : String) (now : Int) : String × DB :=
  (tokenValue,
    { db with authTokens := db.authTokens ++
        [{ userId := userId, token := tokenValue, type := ty,
           expiresAt := now + expiresIn, isUsed := false }] })

/-- `register` (AuthenticationSystem.ts:92-193).  `hashedPassword` stands
for the bcrypt hash of the input password, `newId` for the row id the
insert assigns, `jwtToken` for the output of `generateJWT`, and
`verifTokenValue` for the random token value drawn inside
`generateAuthToken`. -/
def register (db : DB) (input : RegisterInput) (cfg : AuthConfig)
    (hashedPassword : String) (newId : Nat) (jwtToken verifTokenValue : String)
    (now : Int) : RegisterResult × DB :=
  if validatePassword input.password = false then
    ({ success := false, user := none, token := none, verificationToken := none,
       message := "Password must be at least 8 characters long and contain uppercase, lowercase, number, and special character" }, db)
  else if validateEmail input.email = false then
    ({ success := false, user := none, token := none, verificationToken := none,
       message := "Please provide a valid email address" }, db)
  else if (db.users.find? fun u => u.email == input.email).isSome then
    ({ success := false, user := none, token := none, verificationToken := none,
       message := "An account with this email already exists" }, db)
  else if (db.users.find? fun u => u.username == input.username).isSome then
    ({ success := false, user := none, token := none, verificationToken := none,
       message := "This username is already taken" }, db)
  else
    let user : UserRec :=
      { id := newId, username := input.username, email := input.email,
        password := hashedPassword,
        displayName := input.displayName.getD input.username,
        isActive := !cfg.security.requireEmailVerification }
    let db1 := { db with users := db.users ++ [user] }
    if cfg.security.requireEmailVerification = true then
      let gen := generateAuthToken db1 user.id "email_verification"
        cfg.tokenExpiration.emailVerification verifTokenValue now
      ({ success := true, user := some user, token := some jwtToken,
         verificationToken := some gen.1,
         message := "Account created successfully. Please check your email to verify your account." }, gen.2)
    else
      ({ success := true, user := some user, token := some jwtToken,
         verificationToken := none,
         message := "Account created successfully. Welcome to NeuroCore AI!" }, db1)

-- Concrete registration input used by several witnesses.
def exInput : RegisterInput :=
  { username := "alice", email := "a@x.com", password := "Str0ng!Pass", displayName := none }

def exDB0 : DB := { users := [], authTokens := [], twoFactorAuth := [], sessions := [] }

/-- C6 fails on the code: with the default config
(`requireEmailVerification = true`), a successful `register` still returns
the JWT bearer token in its `token` field, for a user created with
`isActive = false`. -/
theorem register_token_despite_verification :
    (register exDB0 exInput defaultConfig "hashed" 1 "jwt-1" "vtok-1" 0).1.success = true ∧
    defaultConfig.security.requireEmailVerification = true ∧
    (register exDB0 exInput defaultConfig "hashed" 1 "jwt-1" "vtok-1" 0).1.token =
      some "jwt-1" ∧
    (some "jwt-1" : Option String) ≠ none := by
  exact ⟨by decide, by decide, by decide, by decide⟩

/-- C6 amended: every successful `register` result carries the
authenticated bearer token, regardless of `requireEmailVerification`; when
verification is required the new user is created with `isActive = false`
but the bearer token is returned anyway. -/
theorem register_always_returns_token (db : DB) (input : RegisterInput)
    (cfg : AuthConfig) (hashedPassword : String) (newId : Nat)
    (jwtToken verifTokenValue : String) (now : Int)
    (hsucc : (register db input cfg hashedPassword newId jwtToken verifTokenValue
        now).1.success = true) :
    (register db input cfg hashedPassword newId jwtToken verifTokenValue now).1.token =
      some jwtToken ∧
    (cfg.security.requireEmailVerification = true →
      ∀ u, (register db input cfg hashedPassword newId jwtToken verifTokenValue
          now).1.user = some u → u.isActive = false) := by
  by_cases h1 : validatePassword input.password = false
  · simp [register, h1] at hsucc
  by_cases h2 : validateEmail input.email = false
  · simp [register, h1, h2] at hsucc
  by_cases h3 : (db.users.find? fun u => u.email == input.email).isSome = true
  · simp [register, h1, h2, h3] at hsucc
  by_cases h4 : (db.users.find? fun u => u.username == input.username).isSome = true
  · simp [register, h1, h2, h3, h4] at hsucc
  by_cases hreq : cfg.security.requireEmailVerification = true
  · refine ⟨?_, fun _ u hu => ?_⟩
    · simp [register, h1, h2, h3, h4, hreq]
    · simp [register, h1, h2, h3, h4, hreq] at hu
      simp [← hu, hreq]
  · refine ⟨?_, fun hc => absurd hc hreq⟩
    simp [register, h1, h2, h3, h4, hreq]

/-- Witness for C6 amended: at the concrete successful registration the
returned `token` field is the JWT. -/
theorem register_always_returns_token_witness :
    (register exDB0 exInput defaultConfig "hashed" 1 "jwt-1" "vtok-1" 0).1.token =
      some "jwt-1" :=
  (register_always_returns_token exDB0 exInput defaultConfig "hashed" 1 "jwt-1"
    "vtok-1" 0 (by decide)).1

/-- C10: when email verification is required, a successful `register`
returns in its `verificationToken` field the exact opaque value of the
freshly stored `email_verification` auth token, and that value is
immediately accepted by the ledger lookup `verifyEmail` performs (the
token value reaches the caller directly; no email delivery is involved). -/
theorem register_returns_usable_verification_token (db : DB) (input : RegisterInput)
    (cfg : AuthConfig) (hashedPassword : String) (newId : Nat)
    (jwtToken verifTokenValue : String) (now : Int)
    (hreq : cfg.security.requireEmailVerification = true)
    (hsucc : (register db input cfg hashedPassword newId jwtToken verifTokenValue
        now).1.success = true)
    (hfresh : ∀ r ∈ db.authTokens, r.token ≠ verifTokenValue)
    (httl : 0 < cfg.tokenExpiration.emailVerification) :
    (register db input cfg hashedPassword newId jwtToken verifTokenValue
        now).1.verificationToken = some verifTokenValue ∧
    verifyAuthToken
        (register db input cfg hashedPassword newId jwtToken verifTokenValue now).2
        verifTokenValue "email_verification" now =
      some { userId := newId, token := verifTokenValue, type := "email_verification",
             expiresAt := now + cfg.tokenExpiration.emailVerification,
             isUsed := false } := by
  by_cases h1 : validatePassword input.password = false
  · simp [register, h1] at hsucc
  by_cases h2 : validateEmail input.email = false
  · simp [register, h1, h2] at hsucc
  by_cases h3 : (db.users.find? fun u => u.email == input.email).isSome = true
  · simp [register, h1, h2, h3] at hsucc
  by_cases h4 : (db.users.find? fun u => u.username == input.username).isSome = true
  · simp [register, h1, h2, h3, h4] at hsucc
  constructor
  · simp [register, h1, h2, h3, h4, hreq, generateAuthToken]
  · have hdb2 : (register db input cfg hashedPassword newId jwtToken verifTokenValue
        now).2.authTokens = db.authTokens ++
        [{ userId := newId, token := verifTokenValue, type := "email_verification",
           expiresAt := now + cfg.tokenExpiration.emailVerification,
           isUsed := false }] := by
      simp [register, h1, h2, h3, h4, hreq, generateAuthToken]
    rw [verifyAuthToken, hdb2, List.find?_append]
    have h0 : db.authTokens.find?
        (tokenMatches verifTokenValue "email_verification" now) = none := by
      rw [List.find?_eq_none]
      intro x hx hc
      exact hfresh x hx ((tokenMatches_iff verifTokenValue "email_verification" now
        x).mp hc).1
    have hp : tokenMatches verifTokenValue "email_verification" now
        { userId := newId, token := verifTokenValue, type := "email_verification",
          expiresAt := now + cfg.tokenExpiration.emailVerification,
          isUsed := false } = true :=
      (tokenMatches_iff verifTokenValue "email_verification" now _).mpr
        ⟨rfl, rfl, rfl, by
          show now < now + cfg.tokenExpiration.emailVerification
          omega⟩
    rw [h0]
    simp [List.find?, hp]

/-- Witness for C10: the concrete registration above returns the fresh
token value, and the post-state ledger verifies it. -/
theorem register_returns_usable_verification_token_witness :
    (register exDB0 exInput defaultConfig "hashed" 1 "jwt-1" "vtok-1"
        0).1.verificationToken = some "vtok-1" ∧
    verifyAuthToken (register exDB0 exInput defaultConfig "hashed" 1 "jwt-1" "vtok-1"
        0).2 "vtok-1" "email_verification" 0 =
      some { userId := 1, token := "vtok-1", type := "email_verification",
             expiresAt := 0 + defaultConfig.tokenExpiration.emailVerification,
             isUsed := false } :=
  register_returns_usable_verification_token exDB0 exInput defaultConfig "hashed" 1
    "jwt-1" "vtok-1" 0 (by decide) (by decide) (by simp [exDB0]) (by decide)

/-- The `{ success, message }` result of the flows that return only a
status and a user-facing message. -/
structure SimpleResult where
  success : Bool
  message : String
deriving Repr, DecidableEq

/-- `requestPasswordReset` (AuthenticationSystem.ts:359-394).
`resetTokenValue` stands for the random token value drawn inside
`generateAuthToken`; the reset email is only logged in the source (TODO),
so no queue interaction is modelled. -/
def requestPasswordReset (db : DB) (email resetTokenValue : String) (now : Int)
    (cfg : AuthConfig) : SimpleResult × DB :=
  match db.users.find? fun u => u.email == email with
  | none =>
      ({ success := true,
         message := "If an account with this email exists, you will receive password reset instructions." }, db)
  | some user =>
      let gen := generateAuthToken db user.id "password_reset"
        cfg.tokenExpiration.passwordReset resetTokenValue now
      ({ success := true,
         message := "If an account with this email exists, you will receive password reset instructions." }, gen.2)

/-- C7: `requestPasswordReset` returns one fixed generic success result for
every input — so an existing and a non-existing email receive identical
results; when no user carries the email, the state is unchanged (no token
issued); and the returned value never depends on the generated reset token
value. -/
theorem requestPasswordReset_uniform (db : DB) (email resetTokenValue : String)
    (now : Int) (cfg : AuthConfig) :
    (requestPasswordReset db email resetTokenValue now cfg).1 =
      { success := true,
        message := "If an account with this email exists, you will receive password reset instructions." } ∧
    ((∀ u ∈ db.users, u.email ≠ email) →
      (requestPasswordReset db email resetTokenValue now cfg).2 = db) ∧
    (∀ otherValue, (requestPasswordReset db email resetTokenValue now cfg).1 =
      (requestPasswordReset db email otherValue now cfg).1) := by
  refine ⟨?_, ?_, ?_⟩
  · rcases h : db.users.find? fun u => u.email == email with _ | u <;>
      simp [requestPasswordReset, h]
  · intro hnone
    have h : (db.users.find? fun u => u.email == email) = none := by
      rw [List.find?_eq_none]
      intro u hu hc
      exact hnone u hu (beq_iff_eq.mp hc)
    simp [requestPasswordReset, h]
  · intro otherValue
    rcases h : db.users.find? fun u => u.email == email with _ | u <;>
      simp [requestPasswordReset, h]

/-- Witness for C7: with one stored user, the call for their email and the
call for an unknown email return the same result, and the unknown-email
call leaves the state unchanged. -/
theorem requestPasswordReset_uniform_witness :
    (requestPasswordReset
        { users := [{ id := 7, username := "alice", email := "a@x.com",
                      password := "h", displayName := "alice", isActive := true }],
          authTokens := [], twoFactorAuth := [], sessions := [] }
        "unknown@x.com" "rtok" 0 defaultConfig).2 =
      { users := [{ id := 7, username := "alice", email := "a@x.com",
                    password := "h", displayName := "alice", isActive := true }],
        authTokens := [], twoFactorAuth := [], sessions := [] } ∧
    (requestPasswordReset
        { users := [{ id := 7, username := "alice", email := "a@x.com",
                      password := "h", displayName := "alice", isActive := true }],
          authTokens := [], twoFactorAuth := [], sessions := [] }
        "unknown@x.com" "rtok" 0 defaultConfig).1 =
      (requestPasswordReset
        { users := [{ id := 7, username := "alice", email := "a@x.com",
                      password := "h", displayName := "alice", isActive := true }],
          authTokens := [], twoFactorAuth := [], sessions := [] }
        "a@x.com" "rtok" 0 defaultConfig).1 := by
  constructor
  · exact (requestPasswordReset_uniform
      { users := [{ id := 7, username := "alice", email := "a@x.com",
                    password := "h", displayName := "alice", isActive := true }],
        authTokens := [], twoFactorAuth := [], sessions := [] }
      "unknown@x.com" "rtok" 0 defaultConfig).2.1 (by decide)
  · rw [(requestPasswordReset_uniform
        { users := [{ id := 7, username := "alice", email := "a@x.com",
                      password := "h", displayName := "alice", isActive := true }],
          authTokens := [], twoFactorAuth := [], sessions := [] }
        "unknown@x.com" "rtok" 0 defaultConfig).1,
      (requestPasswordReset_uniform
        { users := [{ id := 7, username := "alice", email := "a@x.com",
                      password := "h", displayName := "alice", isActive := true }],
          authTokens := [], twoFactorAuth := [], sessions := [] }
        "a@x.com" "rtok" 0 defaultConfig).1]

/-- The `db.update(users).set({password}).where(eq(users.id, userId))` step
of `resetPassword` (AuthenticationSystem.ts:418-420). -/
def updateUserPassword (db : DB) (userId : Nat) (hashedPassword : String) : DB :=
  { db with users :=
      db.users.map fun u =>
        if u.id == userId then { u with password := hashedPassword } else u }

/-- `invalidateUserSessions` (AuthenticationSystem.ts:613-615): deletes
every session row of the user. -/
def invalidateUserSessions (db : DB) (userId : Nat) : DB :=
  { db with sessions := db.sessions.filter fun s => !(s.userId == userId) }

/-- `resetPassword` (AuthenticationSystem.ts:397-439).  `hashedPassword`
stands for the bcrypt hash of `newPassword`. -/
def resetPassword (db : DB) (token newPassword hashedPassword : String)
    (now : Int) : SimpleResult × DB :=
  if validatePassword newPassword = false then
    ({ success := false,
       message := "Password must be at least 8 characters long and contain uppercase, lowercase, number, and special character" }, db)
  else
    match verifyAuthToken db token "password_reset" now with
    | none => ({ success := false, message := "Invalid or expired reset token" }, db)
    | some authToken =>
        let db1 := updateUserPassword db authToken.userId hashedPassword
        let db2 := markTokenAsUsed db1 token
        let db3 := invalidateUserSessions db2 authToken.userId
        ({ success := true,
           message := "Password reset successfully. Please log in with your new password." }, db3)

/-- C2: a successful `resetPassword` with a valid `password_reset` token is
exactly the composition "update password hash, then mark the token used,
then delete the user's sessions" (that order); afterwards no session of
that user remains, sessions of other users survive verbatim, the user's
stored hash is the new one, and every row carrying the token value is
marked used. -/
theorem resetPassword_spec (db : DB) (token newPassword hashedPassword : String)
    (now : Int) (r : AuthTokenRec)
    (hpw : validatePassword newPassword = true)
    (hver : verifyAuthToken db token "password_reset" now = some r) :
    (resetPassword db token newPassword hashedPassword now).1.success = true ∧
    (resetPassword db token newPassword hashedPassword now).2 =
      invalidateUserSessions
        (markTokenAsUsed (updateUserPassword db r.userId hashedPassword) token)
        r.userId ∧
    (resetPassword db token newPassword hashedPassword now).2.sessions =
      db.sessions.filter (fun s => !(s.userId == r.userId)) ∧
    (∀ s ∈ (resetPassword db token newPassword hashedPassword now).2.sessions,
      s.userId ≠ r.userId) ∧
    (∀ s ∈ db.sessions, s.userId ≠ r.userId →
      s ∈ (resetPassword db token newPassword hashedPassword now).2.sessions) ∧
    (∀ u ∈ (resetPassword db token newPassword hashedPassword now).2.users,
      u.id = r.userId → u.password = hashedPassword) ∧
    (∀ t ∈ (resetPassword db token newPassword hashedPassword now).2.authTokens,
      t.token = token → t.isUsed = true) := by
  have hres : resetPassword db token newPassword hashedPassword now =
      ({ success := true,
         message := "Password reset successfully. Please log in with your new password." },
        invalidateUserSessions
          (markTokenAsUsed (updateUserPassword db r.userId hashedPassword) token)
          r.userId) := by
    simp [resetPassword, hpw, hver]
  rw [hres]
  have hsess : (invalidateUserSessions
      (markTokenAsUsed (updateUserPassword db r.userId hashedPassword) token)
      r.userId).sessions = db.sessions.filter (fun s => !(s.userId == r.userId)) := by
    simp [invalidateUserSessions, markTokenAsUsed, updateUserPassword]
  refine ⟨rfl, rfl, hsess, ?_, ?_, ?_, ?_⟩
  · intro s hs
    rw [hsess, List.mem_filter] at hs
    simpa using hs.2
  · intro s hs hne
    rw [hsess, List.mem_filter]
    exact ⟨hs, by simpa using hne⟩
  · intro u hu hid
    simp only [invalidateUserSessions, markTokenAsUsed, updateUserPassword,
      List.mem_map] at hu
    obtain ⟨u0, _, hu0⟩ := hu
    by_cases h : u0.id == r.userId
    · rw [if_pos h] at hu0
      rw [← hu0]
    · rw [if_neg (by simpa using h)] at hu0
      subst hu0
      exact absurd hid (by simpa using h)
  · intro t ht htok
    simp only [invalidateUserSessions, markTokenAsUsed, updateUserPassword,
      List.mem_map] at ht
    obtain ⟨t0, _, ht0⟩ := ht
    by_cases h : t0.token == token
    · rw [if_pos h] at ht0
      rw [← ht0]
    · rw [if_neg (by simpa using h)] at ht0
      subst ht0
      exact absurd htok (by simpa using h)

-- Concrete state for the C2 witness: the reset token of user 7, one
-- session of user 7 and one of user 8.
def exResetDB : DB :=
  { users := [{ id := 7, username := "alice", email := "a@x.com",
                password := "oldhash", displayName := "alice", isActive := true }],
    authTokens := [exToken],
    twoFactorAuth := [],
    sessions := [{ id := "s7", userId := 7, expiresAt := 99999 },
                 { id := "s8", userId := 8, expiresAt := 99999 }] }

/-- Witness for C2: at the concrete state the reset succeeds, the session
of user 7 is gone, the session of user 8 survives. -/
theorem resetPassword_spec_witness :
    (resetPassword exResetDB "t1" "NewStr0ng!Pw" "newhash" 500).1.success = true ∧
    (resetPassword exResetDB "t1" "NewStr0ng!Pw" "newhash" 500).2.sessions =
      exResetDB.sessions.filter (fun s => !(s.userId == exToken.userId)) := by
  have h := resetPassword_spec exResetDB "t1" "NewStr0ng!Pw" "newhash" 500 exToken
    (by decide) (by decide)
  exact ⟨h.1, h.2.2.1⟩

/-- The body of the hourly interval callback installed by
`setupCleanupTasks` (AuthenticationSystem.ts:660-679): it deletes
`authTokens` rows with `isUsed = true` and `sessions` rows with
`expiresAt > now` (`gt(sessions.expiresAt, new Date())`); the computed
`oneDayAgo` retention bound is never used. -/
def cleanupTasksStep (db : DB) (now : Int) : DB :=
  { db with
    authTokens := db.authTokens.filter fun r => !(r.isUsed == true)
    sessions := db.sessions.filter fun s => !(decide (now < s.expiresAt)) }

/-- C9 fails on the code (code bug): run at `now = 100` on a session that
expires at 1100 (still valid) and a session that expired at 50, the
cleanup deletes the valid session and keeps the expired one — the `gt` in
the session delete condition is inverted relative to the code's own
comment ("Clean up expired tokens and sessions"). -/
theorem cleanup_deletes_valid_session :
    (100 : Int) < 1100 ∧
    (cleanupTasksStep
        { users := [], authTokens := [], twoFactorAuth := [],
          sessions := [{ id := "s-live", userId := 7, expiresAt := 1100 },
                       { id := "s-old", userId := 8, expiresAt := 50 }] }
        100).sessions = [{ id := "s-old", userId := 8, expiresAt := 50 }] := by
  exact ⟨by decide, by decide⟩

/-- `LoginResult` (AuthenticationSystem.ts:45-52); optional TS fields become
`Option`/`Bool` fields (absent = `none`/`false`). -/
structure LoginResult where
  success : Bool
  user : Option UserRec
  token : Option String
  requiresTwoFactor : Bool
  twoFactorToken : Option String
  message : String
deriving Repr, DecidableEq

/-- The credentials argument of `login` (AuthenticationSystem.ts:196-201). -/
structure Credentials where
  email : String
  password : String
  twoFactorCode : Option String
  twoFactorToken : Option String
deriving Repr, DecidableEq

/-- The effectful collaborators of `login`, as explicit parameters:
`bcryptCompare` models `bcrypt.compare`, `totpVerify` models
`speakeasy.totp.verify` applied to (secret, code, window),
`freshTwoFactorToken` the random value drawn when a 2FA challenge token is
issued, `jwtToken` the output of `generateJWT`, and `freshSessionId` the
random session id of `createSession`. -/
structure LoginDeps where
  bcryptCompare : String → String → Bool
  totpVerify : String → String → Nat → Bool
  freshTwoFactorToken : String
  jwtToken : String
  freshSessionId : String

/-- The mutable state of the `AuthenticationSystem` instance: the database
plus the in-memory `loginAttempts` map. -/
structure AuthState where
  db : DB
  loginAttempts : RateMap
deriving Repr, DecidableEq

/-- `createSession` (AuthenticationSystem.ts:601-611). -/
def createSession (db : DB) (userId : Nat) (sessionId : String) (now : Int)
    (cfg : AuthConfig) : DB :=
  { db with sessions := db.sessions ++
      [{ id := sessionId, userId := userId,
         expiresAt := now + cfg.security.sessionTimeout }] }

/-- The `db.update(twoFactorAuth).set({lastUsed}).where(eq(id))` step of
`login` (AuthenticationSystem.ts:296-298). -/
def updateTwoFactorLastUsed (db : DB) (tfaId : Nat) (now : Int) : DB :=
  { db with twoFactorAuth :=
      db.twoFactorAuth.map fun t =>
        if t.id == tfaId then { t with lastUsed := some now } else t }

/-- `login` (AuthenticationSystem.ts:196-324), step for step: rate-limit
gate, user lookup (absent → record failure, generic message), active
check, password check (mismatch → record failure, generic message),
two-factor handling, then JWT + session + rate-limit clear. -/
def login (st : AuthState) (deps : LoginDeps) (cfg : AuthConfig)
    (creds : Credentials) (now : Int) : LoginResult × AuthState :=
  let rc := checkRateLimit st.loginAttempts creds.email now cfg
  if rc.1 = false then
    ({ success := false, user := none, token := none, requiresTwoFactor := false,
       twoFactorToken := none,
       message := "Too many login attempts. Please try again later." },
     { st with loginAttempts := rc.2 })
  else
    match st.db.users.find? fun u => u.email == creds.email with
    | none =>
        ({ success := false, user := none, token := none,
           requiresTwoFactor := false, twoFactorToken := none,
           message := "Invalid email or password" },
         { db := st.db, loginAttempts := recordFailedAttempt rc.2 creds.email now })
    | some user =>
        if user.isActive = false then
          ({ success := false, user := none, token := none,
             requiresTwoFactor := false, twoFactorToken := none,
             message := "Account is not activated. Please check your email for verification instructions." },
           { db := st.db, loginAttempts := rc.2 })
        else if deps.bcryptCompare creds.password user.password = false then
          ({ success := false, user := none, token := none,
             requiresTwoFactor := false, twoFactorToken := none,
             message := "Invalid email or password" },
           { db := st.db, loginAttempts := recordFailedAttempt rc.2 creds.email now })
        else
          match st.db.twoFactorAuth.find?
              fun t => t.userId == user.id && t.isEnabled with
          | some userTwoFactor =>
              match creds.twoFactorCode, creds.twoFactorToken with
              | some code, some challengeToken =>
                  (match verifyAuthToken st.db challengeToken "2fa" now with
                   | none =>
                       ({ success := false, user := none, token := none,
                          requiresTwoFactor := false, twoFactorToken := none,
                          message := "Invalid or expired two-factor token" },
                        { db := st.db, loginAttempts := rc.2 })
                   | some tokenValid =>
                       if (tokenValid.userId == user.id) = false then
                         ({ success := false, user := none, token := none,
                            requiresTwoFactor := false, twoFactorToken := none,
                            message := "Invalid or expired two-factor token" },
                          { db := st.db, loginAttempts := rc.2 })
                       else if deps.totpVerify userTwoFactor.secret code 2 = false then
                         ({ success := false, user := none, token := none,
                            requiresTwoFactor := false, twoFactorToken := none,
                            message := "Invalid two-factor authentication code" },
                          { db := st.db, loginAttempts := rc.2 })
                       else
                         let db1 := markTokenAsUsed st.db challengeToken
                         let db2 := updateTwoFactorLastUsed db1 userTwoFactor.id now
                         let db3 := createSession db2 user.id deps.freshSessionId now cfg
                         ({ success := true, user := some user,
                            token := some deps.jwtToken, requiresTwoFactor := false,
                            twoFactorToken := none, message := "Login successful" },
                          { db := db3,
                            loginAttempts := clearRateLimit rc.2 creds.email }))
              | _, _ =>
                  let gen := generateAuthToken st.db user.id "2fa"
                    cfg.tokenExpiration.twoFactor deps.freshTwoFactorToken now
                  ({ success := false, user := none, token := none,
                     requiresTwoFactor := true, twoFactorToken := some gen.1,
                     message := "Two-factor authentication required" },
                   { db := gen.2, loginAttempts := rc.2 })
          | none =>
              let db3 := createSession st.db user.id deps.freshSessionId now cfg
              ({ success := true, user := some user, token := some deps.jwtToken,
                 requiresTwoFactor := false, twoFactorToken := none,
                 message := "Login successful" },
               { db := db3, loginAttempts := clearRateLimit rc.2 creds.email })

-- Concrete state for C3: an existing but inactive account, wrong password.
def exInactiveUser : UserRec :=
  { id := 9, username := "carol", email := "c@x.com", password := "hash",
    displayName := "carol", isActive := false }

def exC3State : AuthState :=
  { db := { users := [exInactiveUser], authTokens := [], twoFactorAuth := [],
            sessions := [] },
    loginAttempts := [] }

def exC3Deps : LoginDeps :=
  { bcryptCompare := fun _ _ => false, totpVerify := fun _ _ _ => true,
    freshTwoFactorToken := "f2f", jwtToken := "jwt", freshSessionId := "sid" }

def exC3Creds : Credentials :=
  { email := "c@x.com", password := "wrong", twoFactorCode := none,
    twoFactorToken := none }

/-- C3 fails on the code: logging in against an existing but inactive
account with a wrong password (the stub compare rejects everything)
returns the account-not-activated failure, not the generic
invalid-credentials message, and records no rate-limit failure (the
attempts map stays empty). -/
theorem login_inactive_wrong_password :
    (login exC3State exC3Deps defaultConfig exC3Creds 0).1.message =
      "Account is not activated. Please check your email for verification instructions." ∧
    (login exC3State exC3Deps defaultConfig exC3Creds 0).1.message ≠
      "Invalid email or password" ∧
    (login exC3State exC3Deps defaultConfig exC3Creds 0).2.loginAttempts = [] := by
  exact ⟨by decide, by decide, by decide⟩

/-- C3 amended: the login checks run in the order RATE_CHECK, user lookup
(absent user records a rate-limit failure and yields the generic
message), ACTIVE_CHECK (an inactive account yields the
account-not-activated failure and records no rate-limit failure,
regardless of the supplied password), then the password-hash comparison
(mismatch records a failure and yields the generic message). -/
theorem login_check_order (st : AuthState) (deps : LoginDeps) (cfg : AuthConfig)
    (creds : Credentials) (now : Int) :
    ((checkRateLimit st.loginAttempts creds.email now cfg).1 = false →
      (login st deps cfg creds now).1.message =
        "Too many login attempts. Please try again later." ∧
      (login st deps cfg creds now).2.db = st.db) ∧
    ((checkRateLimit st.loginAttempts creds.email now cfg).1 = true →
      (st.db.users.find? fun u => u.email == creds.email) = none →
      (login st deps cfg creds now).1.message = "Invalid email or password" ∧
      (login st deps cfg creds now).2.loginAttempts =
        recordFailedAttempt (checkRateLimit st.loginAttempts creds.email now cfg).2
          creds.email now) ∧
    (∀ u, (checkRateLimit st.loginAttempts creds.email now cfg).1 = true →
      (st.db.users.find? fun x => x.email == creds.email) = some u →
      u.isActive = false →
      (login st deps cfg creds now).1 =
        { success := false, user := none, token := none, requiresTwoFactor := false,
          twoFactorToken := none,
          message := "Account is not activated. Please check your email for verification instructions." } ∧
      (login st deps cfg creds now).2.db = st.db ∧
      (login st deps cfg creds now).2.loginAttempts =
        (checkRateLimit st.loginAttempts creds.email now cfg).2) ∧
    (∀ u, (checkRateLimit st.loginAttempts creds.email now cfg).1 = true →
      (st.db.users.find? fun x => x.email == creds.email) = some u →
      u.isActive = true →
      deps.bcryptCompare creds.password u.password = false →
      (login st deps cfg creds now).1.message = "Invalid email or password" ∧
      (login st deps cfg creds now).2.loginAttempts =
        recordFailedAttempt (checkRateLimit st.loginAttempts creds.email now cfg).2
          creds.email now) := by
  refine ⟨?_, ?_, ?_, ?_⟩
  · intro hrl
    simp [login, hrl]
  · intro hrl hfind
    simp [login, hrl, hfind]
  · intro u hrl hfind hinactive
    simp [login, hrl, hfind, hinactive]
  · intro u hrl hfind hactive hpw
    simp [login, hrl, hfind, hactive, hpw]

/-- Witness for C3 amended: the inactive-account case at the concrete
input above. -/
theorem login_check_order_witness :
    (login exC3State exC3Deps defaultConfig exC3Creds 0).1 =
      { success := false, user := none, token := none, requiresTwoFactor := false,
        twoFactorToken := none,
        message := "Account is not activated. Please check your email for verification instructions." } ∧
    (login exC3State exC3Deps defaultConfig exC3Creds 0).2.db = exC3State.db ∧
    (login exC3State exC3Deps defaultConfig exC3Creds 0).2.loginAttempts =
      (checkRateLimit exC3State.loginAttempts exC3Creds.email 0 defaultConfig).2 :=
  (login_check_order exC3State exC3Deps defaultConfig exC3Creds 0).2.2.1
    exInactiveUser (by decide) (by decide) (by decide)

-- Concrete state for C4: an active user with 2FA enabled who supplies a
-- challenge token that is not in the ledger.
def exTfaUser : UserRec :=
  { id := 7, username := "bob", email := "b@x.com", password := "pw",
    displayName := "bob", isActive := true }

def exTfaRec : TwoFactorRec :=
  { id := 1, userId := 7, secret := "SECRET", isEnabled := true, lastUsed := none }

def exTfaState : AuthState :=
  { db := { users := [exTfaUser], authTokens := [], twoFactorAuth := [exTfaRec],
            sessions := [] },
    loginAttempts := [] }

def exTfaDeps : LoginDeps :=
  { bcryptCompare := fun p h => p == h, totpVerify := fun _ _ _ => true,
    freshTwoFactorToken := "f2f", jwtToken := "jwt", freshSessionId := "sid" }

def exTfaCreds : Credentials :=
  { email := "b@x.com", password := "pw", twoFactorCode := some "123456",
    twoFactorToken := some "ctok" }

/-- C4 fails on the code: at the two-factor step with an invalid challenge
token, login returns the terminal two-factor failure but records no
failed attempt — the attempts map stays empty, so the failure count for
the email does not increase. -/
theorem login_twofactor_no_rate_record :
    (login exTfaState exTfaDeps defaultConfig exTfaCreds 0).1.message =
      "Invalid or expired two-factor token" ∧
    (login exTfaState exTfaDeps defaultConfig exTfaCreds 0).1.success = false ∧
    (login exTfaState exTfaDeps defaultConfig exTfaCreds 0).2.loginAttempts = [] ∧
    rateGet [] exTfaCreds.email = none := by
  exact ⟨by decide, by decide, by decide, by decide⟩

/-- C4 amended: when login reaches the two-factor step with a challenge
token and a code, and the challenge token is invalid, belongs to another
user, or the TOTP code fails the ±2-step verification, login returns a
terminal two-factor failure and records **no** failed attempt against the
rate limiter — the attempts map is exactly the one left by the rate-limit
gate, and the database is unchanged. -/
theorem login_twofactor_failure_spec (st : AuthState) (deps : LoginDeps)
    (cfg : AuthConfig) (creds : Credentials) (now : Int) (u : UserRec)
    (tfa : TwoFactorRec) (code challengeToken : String)
    (hrl : (checkRateLimit st.loginAttempts creds.email now cfg).1 = true)
    (hfind : (st.db.users.find? fun x => x.email == creds.email) = some u)
    (hactive : u.isActive = true)
    (hpw : deps.bcryptCompare creds.password u.password = true)
    (htfa : (st.db.twoFactorAuth.find? fun t => t.userId == u.id && t.isEnabled) =
      some tfa)
    (hcode : creds.twoFactorCode = some code)
    (hctok : creds.twoFactorToken = some challengeToken)
    (hbad : (∀ r, verifyAuthToken st.db challengeToken "2fa" now = some r →
        r.userId ≠ u.id) ∨ deps.totpVerify tfa.secret code 2 = false) :
    (login st deps cfg creds now).1.success = false ∧
    (login st deps cfg creds now).1.requiresTwoFactor = false ∧
    ((login st deps cfg creds now).1.message = "Invalid or expired two-factor token" ∨
      (login st deps cfg creds now).1.message =
        "Invalid two-factor authentication code") ∧
    (login st deps cfg creds now).2.db = st.db ∧
    (login st deps cfg creds now).2.loginAttempts =
      (checkRateLimit st.loginAttempts creds.email now cfg).2 := by
  rcases hv : verifyAuthToken st.db challengeToken "2fa" now with _ | r
  · simp [login, hrl, hfind, hactive, hpw, htfa, hcode, hctok, hv]
  · by_cases hid : (r.userId == u.id) = true
    · have htotp : deps.totpVerify tfa.secret code 2 = false := by
        rcases hbad with hb | hb
        · exact absurd (beq_iff_eq.mp hid) (hb r hv)
        · exact hb
      simp [login, hrl, hfind, hactive, hpw, htfa, hcode, hctok, hv, hid, htotp]
    · have hid' : (r.userId == u.id) = false := by simpa using hid
      simp [login, hrl, hfind, hactive, hpw, htfa, hcode, hctok, hv, hid']

/-- Witness for C4 amended: the concrete invalid-challenge-token input. -/
theorem login_twofactor_failure_spec_witness :
    (login exTfaState exTfaDeps defaultConfig exTfaCreds 0).1.success = false ∧
    (login exTfaState exTfaDeps defaultConfig exTfaCreds 0).1.requiresTwoFactor =
      false ∧
    ((login exTfaState exTfaDeps defaultConfig exTfaCreds 0).1.message =
        "Invalid or expired two-factor token" ∨
      (login exTfaState exTfaDeps defaultConfig exTfaCreds 0).1.message =
        "Invalid two-factor authentication code") ∧
    (login exTfaState exTfaDeps defaultConfig exTfaCreds 0).2.db = exTfaState.db ∧
    (login exTfaState exTfaDeps defaultConfig exTfaCreds 0).2.loginAttempts =
      (checkRateLimit exTfaState.loginAttempts exTfaCreds.email 0 defaultConfig).2 :=
  login_twofactor_failure_spec exTfaState exTfaDeps defaultConfig exTfaCreds 0
    exTfaUser exTfaRec "123456" "ctok" (by decide) (by decide) (by decide)
    (by decide) (by decide) (by decide) (by decide)
    (Or.inl fun r hr => by simp [verifyAuthToken, exTfaState, List.find?] at hr)

/-- A row of the `emailQueue` table (EmailService.ts / §3 QueuedEmail);
fields never read by the queue processor (`from`, bodies, template data,
`scheduledAt`) are omitted; the `to` column is named `recipient` here
because `to` is reserved in Lean.  `error` holds the transport error
message. -/
structure QueuedEmail where
  id : Nat
  recipient : String
  subject : String
  status : String
  attempts : Nat
  lastAttempt : Option Int
  sentAt : Option Int
  error : Option String
deriving Repr, DecidableEq

/-- `EmailConfig.retry` (EmailService.ts:33-36, defaults 3 attempts,
5-minute delay). -/
structure RetryCfg where
  maxAttempts : Nat
  delay : Int
deriving Repr, DecidableEq

/-- `EmailConfig.queue` (EmailService.ts:37-40, defaults 30 s interval,
batch size 10). -/
structure QueueCfg where
  processInterval : Int
  batchSize : Nat
deriving Repr, DecidableEq

/-- The queue-relevant part of `EmailConfig` (EmailService.ts:57-81). -/
structure EmailConfig where
  retry : RetryCfg
  queue : QueueCfg
deriving Repr, DecidableEq

/-- The constructor defaults of `EmailService`. -/
def defaultEmailConfig : EmailConfig :=
  { retry := { maxAttempts := 3, delay := 5 * 60 * 1000 },
    queue := { processInterval := 30 * 1000, batchSize := 10 } }

/-- `processEmail` (EmailService.ts:256-294): set the row to `sending`,
attempt delivery (outcome `ok` stands for the `transporter.sendMail`
result), then set it to `sent` (with `sentAt`) or to `failed`
(incrementing `attempts` from the snapshot, recording `lastAttempt` and
the transport error message, here abstracted to one string). -/
def processEmail (queue : List QueuedEmail) (email : QueuedEmail) (ok : Bool)
    (now : Int) : List QueuedEmail :=
  let q1 := queue.map fun r =>
    if r.id == email.id then { r with status := "sending" } else r
  if ok then
    q1.map fun r =>
      if r.id == email.id then { r with status := "sent", sentAt := some now } else r
  else
    q1.map fun r =>
      if r.id == email.id then
        { r with
          status := "failed"
          attempts := email.attempts + 1
          lastAttempt := some now
          error := some "send error" }
      else r

/-- The backoff test of the retry pass (EmailService.ts:239-243):
`timeSinceLastAttempt` is infinite when `lastAttempt` is unset, and the
retry fires when it is at least the configured delay. -/
def retryDue (email : QueuedEmail) (now delay : Int) : Bool :=
  match email.lastAttempt with
  | none => true
  | some t => decide (delay ≤ now - t)

/-- First pass of `processEmailQueue` (EmailService.ts:223-225): deliver
each email of the pending batch in order (`ok` gives the transport outcome
per row id). -/
def processEmailPass (queue batch : List QueuedEmail) (ok : Nat → Bool)
    (now : Int) : List QueuedEmail :=
  batch.foldl (fun acc email => processEmail acc email (ok email.id) now) queue

/-- Second pass of `processEmailQueue` (EmailService.ts:236-247): re-run
delivery for each failed row of the batch, but only when
`attempts < maxAttempts` and the backoff delay has elapsed. -/
def retryEmailPass (queue batch : List QueuedEmail) (ok : Nat → Bool) (now : Int)
    (cfg : EmailConfig) : List QueuedEmail :=
  batch.foldl
    (fun acc email =>
      if email.attempts < cfg.retry.maxAttempts then
        if retryDue email now cfg.retry.delay then
          processEmail acc email (ok email.id) now
        else acc
      else acc)
    queue

/-- One run of `processEmailQueue` (EmailService.ts:213-253): the pending
batch (bounded by `batchSize`) is delivered, then the failed batch is
re-examined under the attempts/backoff guard. -/
def processEmailQueue (queue : List QueuedEmail) (ok : Nat → Bool) (now : Int)
    (cfg : EmailConfig) : List QueuedEmail :=
  let pendingEmails := (queue.filter fun e => e.status == "pending").take
    cfg.queue.batchSize
  let q1 := processEmailPass queue pendingEmails ok now
  let retryEmails := (q1.filter fun e => e.status == "failed").take
    cfg.queue.batchSize
  retryEmailPass q1 retryEmails ok now cfg

/-- Iterated queue-processor runs: `ok n` and `times n` give the transport
outcomes and the wall-clock time of the n-th run. -/
def runQueue (queue : List QueuedEmail) (ok : Nat → Nat → Bool) (times : Nat → Int)
    (cfg : EmailConfig) : Nat → List QueuedEmail
  | 0 => queue
  | n + 1 => processEmailQueue (runQueue queue ok times cfg n) (ok n) (times n) cfg

theorem processEmail_map_id (queue : List QueuedEmail) (email : QueuedEmail)
    (ok : Bool) (now : Int) :
    (processEmail queue email ok now).map (fun r => r.id) =
      queue.map (fun r => r.id) := by
  cases ok <;>
    · simp only [processEmail, Bool.false_eq_true, if_false, if_true, List.map_map]
      refine List.map_congr_left fun r _ => ?_
      by_cases h : (r.id == email.id) = true <;> simp [Function.comp, h]

theorem mem_processEmail_of_ne (queue : List QueuedEmail) (email : QueuedEmail)
    (ok : Bool) (now : Int) (r : QueuedEmail) (hr : r ∈ queue)
    (hne : r.id ≠ email.id) : r ∈ processEmail queue email ok now := by
  have hbeq : (r.id == email.id) = false := by simpa using hne
  cases ok <;>
    · simp only [processEmail, Bool.false_eq_true, if_false, if_true, List.map_map]
      exact List.mem_map.mpr ⟨r, hr, by simp [Function.comp, hbeq]⟩

theorem processEmailPass_map_id (queue batch : List QueuedEmail) (ok : Nat → Bool)
    (now : Int) :
    (processEmailPass queue batch ok now).map (fun r => r.id) =
      queue.map (fun r => r.id) := by
  induction batch generalizing queue with
  | nil => rfl
  | cons e t ih =>
      simp only [processEmailPass, List.foldl_cons]
      simp only [processEmailPass] at ih
      rw [ih, processEmail_map_id]

theorem mem_processEmailPass_of_ne (queue batch : List QueuedEmail)
    (ok : Nat → Bool) (now : Int) (r : QueuedEmail) (hr : r ∈ queue)
    (hne : ∀ e ∈ batch, r.id ≠ e.id) : r ∈ processEmailPass queue batch ok now := by
  induction batch generalizing queue with
  | nil => exact hr
  | cons e t ih =>
      simp only [processEmailPass, List.foldl_cons]
      simp only [processEmailPass] at ih
      exact ih _ (mem_processEmail_of_ne _ _ _ _ _ hr (hne e (by simp)))
        (fun e' he' => hne e' (by simp [he']))

theorem retryEmailPass_map_id (queue batch : List QueuedEmail) (ok : Nat → Bool)
    (now : Int) (cfg : EmailConfig) :
    (retryEmailPass queue batch ok now cfg).map (fun r => r.id) =
      queue.map (fun r => r.id) := by
  induction batch generalizing queue with
  | nil => rfl
  | cons e t ih =>
      simp only [retryEmailPass, List.foldl_cons]
      simp only [retryEmailPass] at ih
      by_cases h1 : e.attempts < cfg.retry.maxAttempts
      · by_cases h2 : retryDue e now cfg.retry.delay = true
        · rw [if_pos h1, if_pos h2, ih, processEmail_map_id]
        · rw [if_pos h1, if_neg h2, ih]
      · rw [if_neg h1, ih]

theorem mem_retryEmailPass_of_skipped (queue batch : List QueuedEmail)
    (ok : Nat → Bool) (now : Int) (cfg : EmailConfig) (r : QueuedEmail)
    (hr : r ∈ queue)
    (hne : ∀ e ∈ batch, e.attempts < cfg.retry.maxAttempts →
      retryDue e now cfg.retry.delay = true → r.id ≠ e.id) :
    r ∈ retryEmailPass queue batch ok now cfg := by
  induction batch generalizing queue with
  | nil => exact hr
  | cons e t ih =>
      simp only [retryEmailPass, List.foldl_cons]
      simp only [retryEmailPass] at ih
      by_cases h1 : e.attempts < cfg.retry.maxAttempts
      · by_cases h2 : retryDue e now cfg.retry.delay = true
        · rw [if_pos h1, if_pos h2]
          exact ih _ (mem_processEmail_of_ne _ _ _ _ _ hr (hne e (by simp) h1 h2))
            (fun e' he' h1' h2' => hne e' (by simp [he']) h1' h2')
        · rw [if_pos h1, if_neg h2]
          exact ih _ hr (fun e' he' h1' h2' => hne e' (by simp [he']) h1' h2')
      · rw [if_neg h1]
        exact ih _ hr (fun e' he' h1' h2' => hne e' (by simp [he']) h1' h2')

theorem processEmailQueue_map_id (queue : List QueuedEmail) (ok : Nat → Bool)
    (now : Int) (cfg : EmailConfig) :
    (processEmailQueue queue ok now cfg).map (fun r => r.id) =
      queue.map (fun r => r.id) := by
  simp only [processEmailQueue]
  rw [retryEmailPass_map_id, processEmailPass_map_id]

theorem mem_processEmailQueue_of_not_retried (queue : List QueuedEmail)
    (ok : Nat → Bool) (now : Int) (cfg : EmailConfig) (e : QueuedEmail)
    (hnodup : (queue.map fun r => r.id).Nodup)
    (he : e ∈ queue) (hst : e.status = "failed")
    (hskip : ¬(e.attempts < cfg.retry.maxAttempts ∧
      retryDue e now cfg.retry.delay = true)) :
    e ∈ processEmailQueue queue ok now cfg := by
  simp only [processEmailQueue]
  have hq1 : e ∈ processEmailPass queue
      ((queue.filter fun x => x.status == "pending").take cfg.queue.batchSize)
      ok now := by
    refine mem_processEmailPass_of_ne _ _ _ _ _ he fun x hx hid => ?_
    have hxq : x ∈ queue := (List.mem_filter.mp (List.mem_of_mem_take hx)).1
    have hxp : (x.status == "pending") = true :=
      (List.mem_filter.mp (List.mem_of_mem_take hx)).2
    have hex : e = x := List.inj_on_of_nodup_map hnodup he hxq hid
    rw [← hex] at hxp
    rw [hst] at hxp
    exact absurd hxp (by decide)
  refine mem_retryEmailPass_of_skipped _ _ _ _ _ _ hq1 fun x hx h1 h2 hid => ?_
  have hq1id : (processEmailPass queue
      ((queue.filter fun x => x.status == "pending").take cfg.queue.batchSize)
      ok now).map (fun r => r.id) = queue.map (fun r => r.id) :=
    processEmailPass_map_id _ _ _ _
  have hnodup1 : ((processEmailPass queue
      ((queue.filter fun x => x.status == "pending").take cfg.queue.batchSize)
      ok now).map fun r => r.id).Nodup := by rw [hq1id]; exact hnodup
  have hxq1 : x ∈ processEmailPass queue
      ((queue.filter fun x => x.status == "pending").take cfg.queue.batchSize)
      ok now := (List.mem_filter.mp (List.mem_of_mem_take hx)).1
  have hex : e = x := List.inj_on_of_nodup_map hnodup1 hq1 hxq1 hid
  rw [← hex] at h1 h2
  exact hskip ⟨h1, h2⟩

/-- C8: a `failed` row is re-attempted only when `attempts < maxAttempts`
and the backoff delay has elapsed since `lastAttempt` — under any other
circumstances one processor run leaves the row untouched (same record,
still present); a run never inserts or deletes rows (the id list is
preserved); and once `attempts` has reached `maxAttempts` the unchanged
row is still present after any number of runs at any times and transport
outcomes — it stays `failed` forever and is never deleted. -/
theorem processEmailQueue_retry_policy (cfg : EmailConfig)
    (queue : List QueuedEmail) (e : QueuedEmail)
    (hnodup : (queue.map fun r => r.id).Nodup)
    (he : e ∈ queue) (hst : e.status = "failed") :
    (∀ (ok : Nat → Bool) (now : Int),
      ¬(e.attempts < cfg.retry.maxAttempts ∧
        retryDue e now cfg.retry.delay = true) →
      e ∈ processEmailQueue queue ok now cfg) ∧
    (∀ (ok : Nat → Bool) (now : Int),
      (processEmailQueue queue ok now cfg).map (fun r => r.id) =
        queue.map (fun r => r.id)) ∧
    (cfg.retry.maxAttempts ≤ e.attempts →
      ∀ (ok : Nat → Nat → Bool) (times : Nat → Int) (n : Nat),
        e ∈ runQueue queue ok times cfg n) := by
  refine ⟨fun ok now hskip =>
    mem_processEmailQueue_of_not_retried queue ok now cfg e hnodup he hst hskip,
    fun ok now => processEmailQueue_map_id queue ok now cfg, ?_⟩
  intro hmax ok times n
  induction n with
  | zero => exact he
  | succ k ih =>
      have hid : (runQueue queue ok times cfg k).map (fun r => r.id) =
          queue.map (fun r => r.id) := by
        clear ih
        induction k with
        | zero => rfl
        | succ j ihj => rw [runQueue, processEmailQueue_map_id, ihj]
      have hnodupk : ((runQueue queue ok times cfg k).map fun r => r.id).Nodup := by
        rw [hid]; exact hnodup
      exact mem_processEmailQueue_of_not_retried _ (ok k) (times k) cfg e hnodupk
        ih hst (fun hc => absurd hc.1 (by omega))

/-- Witness for C8: a concrete exhausted row (`attempts = 3 = maxAttempts`)
survives two further processor runs unchanged. -/
theorem processEmailQueue_retry_policy_witness :
    ({ id := 1, recipient := "a@x.com", subject := "hi", status := "failed",
       attempts := 3, lastAttempt := some 0, sentAt := none,
       error := some "send error" } : QueuedEmail) ∈
      runQueue
        [{ id := 1, recipient := "a@x.com", subject := "hi", status := "failed",
           attempts := 3, lastAttempt := some 0, sentAt := none,
           error := some "send error" }]
        (fun _ _ => false) (fun n => 1000000 * (Int.ofNat n + 1))
        defaultEmailConfig 2 :=
  (processEmailQueue_retry_policy defaultEmailConfig
      [{ id := 1, recipient := "a@x.com", subject := "hi", status := "failed",
         attempts := 3, lastAttempt := some 0, sentAt := none,
         error := some "send error" }]
      { id := 1, recipient := "a@x.com", subject := "hi", status := "failed",
        attempts := 3, lastAttempt := some 0, sentAt := none,
        error := some "send error" }
      (by decide) (by decide) (by decide)).2.2 (by decide)
    (fun _ _ => false) (fun n => 1000000 * (Int.ofNat n + 1)) 2
